import Mathlib

/-!
Verification development for the `result` C++ library (src/result/result.h,
first header revision, whose line numbers the claims cite).

The embedding has two layers, mirroring the two components of the code:

* `result.details.ResultStorage` models the tagged-union storage engine
  (result.h lines 107-207) at the level of object lifetimes.  A field
  `liveT : Option T` is `some v` exactly when a `T` object is alive in the
  shared storage slot and has value `v`; `none` means no `T` object is alive
  there (storage never constructed, or already destroyed).  Reads or
  assignments through a slot holding no live object do not begin an object
  lifetime, so they propagate/keep `none` — this is the observable content of
  the C++ object-lifetime rules that the spec's instrumented
  construction/destruction counting would detect.

* `result.Result` models the user-facing facade (result.h lines 211-512) as
  the sum of the two alternatives, which is exactly the state space of a
  well-formed storage (tag plus the matching live payload).  Operations that
  can reach `details::terminate` are modelled in `Except String`, where
  `Except.error msg` models "write `msg` to the diagnostic sink and terminate
  the process"; operations whose bodies contain no call to `terminate`
  translate to `pure` computations.

The C++ code dispatches at compile time on `std::is_same<T, unit_t>::value`
(`if constexpr`).  Each affected operation therefore takes the instantiation
constant `tIsUnit : Bool`: `false` models any instantiation with `T ≠ unit_t`,
`true` models the `T = unit_t` instantiation.

Payload operators `==`, `<`, `<=` of the C++ payload types are abstracted as
function parameters (`eqT`, `ltT`, ...), since `Result` is generic in them.
-/

namespace result

/-- Models `enum class ResultKind : uint8_t { Ok = 0, Err = 1 }` (result.h 23-26). -/
inductive ResultKind : Type where
  | Ok : ResultKind
  | Err : ResultKind
deriving DecidableEq, Repr

/-- Models `struct unit_t {}` (result.h 33): the zero-size success marker. -/
inductive unit_t : Type where
  | unit : unit_t
deriving DecidableEq, Repr

namespace details

/-- Models `details::ResultStorage<T, E>` (result.h 107-207) at object-lifetime
granularity.  `m_tag` is the discriminant; `liveT = some v` means a live `T`
object with value `v` occupies the storage, `none` means no live `T` object;
likewise `liveE`. -/
structure ResultStorage (T E : Type) where
  m_tag : ResultKind
  liveT : Option T
  liveE : Option E

/-- Models `ResultStorage(Ok<T> val)` (result.h 119-124): placement-construct
the moved wrapper payload and set the tag to `Ok` — except when `T = unit_t`
(`tIsUnit = true`), where the `if constexpr` skips the construction entirely
and only the tag is set, so no `T` object ever becomes live. -/
def construct_ok {T E : Type} (tIsUnit : Bool) (val : T) : ResultStorage T E :=
  { m_tag := ResultKind.Ok
    liveT := if tIsUnit then none else some val
    liveE := none }

/-- Models `ResultStorage(Err<E> val)` (result.h 125-128): placement-construct
the moved wrapper payload and set the tag to `Err`. -/
def construct_err {T E : Type} (val : E) : ResultStorage T E :=
  { m_tag := ResultKind.Err
    liveT := none
    liveE := some val }

/-- Models the copy constructor `ResultStorage(const ResultStorage&)`
(result.h 130-138): copy the tag, then placement-construct a copy of the
alternative selected by the tag (skipped for `T = unit_t` on the `Ok` side).
Copying from a slot with no live object cannot produce a live object with a
defined value, so `none` propagates. -/
def copy_construct {T E : Type} (tIsUnit : Bool) (rhs : ResultStorage T E) :
    ResultStorage T E :=
  match rhs.m_tag with
  | ResultKind.Ok =>
      { m_tag := rhs.m_tag
        liveT := if tIsUnit then none else rhs.liveT
        liveE := none }
  | ResultKind.Err =>
      { m_tag := rhs.m_tag
        liveT := none
        liveE := rhs.liveE }

/-- Models the move constructor `ResultStorage(ResultStorage&&)`
(result.h 139-147).  At the value level it performs the same transfer as the
copy constructor (the C++ source keeps a live, moved-from object behind, which
a value model does not distinguish). -/
def move_construct {T E : Type} (tIsUnit : Bool) (rhs : ResultStorage T E) :
    ResultStorage T E :=
  match rhs.m_tag with
  | ResultKind.Ok =>
      { m_tag := rhs.m_tag
        liveT := if tIsUnit then none else rhs.liveT
        liveE := none }
  | ResultKind.Err =>
      { m_tag := rhs.m_tag
        liveT := none
        liveE := rhs.liveE }

/-- Models `ResultStorage::destroy()` (result.h 194-203): end the lifetime of
the alternative selected by the tag.  The other slot is untouched. -/
def destroy {T E : Type} (s : ResultStorage T E) : ResultStorage T E :=
  match s.m_tag with
  | ResultKind.Ok => { s with liveT := none }
  | ResultKind.Err => { s with liveE := none }

/-- Records which destructor call `destroy()` (result.h 194-203) issues:
`get<T>().~T()` when the tag is `Ok`, `get<E>().~E()` when it is `Err` —
unconditionally, purely by tag. `true` stands for the `~T` call, `false` for
the `~E` call. -/
def destroy_calls {T E : Type} (s : ResultStorage T E) : List Bool :=
  match s.m_tag with
  | ResultKind.Ok => [true]
  | ResultKind.Err => [false]

/-- Models the raw member assignment `get<T>() = x` used by `operator=`
(result.h 153-154): assigning through a reference into the slot updates the
live object's value, but if no object is live there, no assignment of a dead
object can begin a lifetime, so the slot stays without a live object. -/
def assign_slot_T {T E : Type} (s : ResultStorage T E) (x : Option T) :
    ResultStorage T E :=
  match s.liveT with
  | some _ => { s with liveT := x }
  | none => s

/-- Models the raw member assignment `get<E>() = x` used by `operator=`
(result.h 156-157); see `assign_slot_T`. -/
def assign_slot_E {T E : Type} (s : ResultStorage T E) (x : Option E) :
    ResultStorage T E :=
  match s.liveE with
  | some _ => { s with liveE := x }
  | none => s

/-- Models `ResultStorage::operator=(const ResultStorage&)` (result.h
148-159): `destroy()` the current payload, copy the tag, then *assign*
(`val = rhs.get<...>()`) — not placement-construct — into the slot selected by
the new tag.  The move assignment (result.h 160-171) is identical at this
granularity. -/
def copy_assign {T E : Type} (s rhs : ResultStorage T E) : ResultStorage T E :=
  let s1 := destroy s
  let s2 := { s1 with m_tag := rhs.m_tag }
  match rhs.m_tag with
  | ResultKind.Ok => assign_slot_T s2 rhs.liveT
  | ResultKind.Err => assign_slot_E s2 rhs.liveE

/-- Exactly-one-alternative well-formedness: the discriminant matches
precisely one live payload — tag `Ok` means a live `T` and no live `E`, tag
`Err` means a live `E` and no live `T`. -/
def wf {T E : Type} (s : ResultStorage T E) : Bool :=
  match s.m_tag with
  | ResultKind.Ok => s.liveT.isSome && s.liveE.isNone
  | ResultKind.Err => s.liveE.isSome && s.liveT.isNone

end details

/-- Models the facade state space of `Result<T, E>` (result.h 211-479): a
well-formed storage is exactly a discriminant plus the matching live payload,
i.e. either a success value of type `T` or an error value of type `E`.
`Result.ok v` models a `Result` built from `Ok(v)` (for `T = unit_t`, `v` is
the stateless `unit_t.unit`, whose skipped construction the facade cannot
observe), `Result.err e` one built from `Err(e)`. -/
inductive Result (T E : Type) : Type where
  | ok : T → Result T E
  | err : E → Result T E
deriving DecidableEq, Repr

namespace Result

/-- Models `Result::kind()` (result.h 250): the stored discriminant. -/
def kind {T E : Type} : Result T E → ResultKind
  | Result.ok _ => ResultKind.Ok
  | Result.err _ => ResultKind.Err

/-- Models `Result::is_ok()` (result.h 246): `kind() == ResultKind::Ok`. -/
def is_ok {T E : Type} (r : Result T E) : Bool :=
  r.kind = ResultKind.Ok

/-- Models `Result::is_err()` (result.h 247-249): `kind() == ResultKind::Err`. -/
def is_err {T E : Type} (r : Result T E) : Bool :=
  r.kind = ResultKind.Err

/-- Models `Result::operator==(const Result<T, E>&)` (result.h 272-288):
differing kinds compare unequal; two `Ok`s compare payloads with `T`'s `==`
(`eqT`), except that the `T = unit_t` instantiation (`tIsUnit = true`) returns
true without comparing; two `Err`s compare payloads with `E`'s `==` (`eqE`). -/
def eq {T E : Type} (tIsUnit : Bool) (eqT : T → T → Bool) (eqE : E → E → Bool)
    (a b : Result T E) : Bool :=
  match a, b with
  | Result.ok x, Result.ok y => if tIsUnit then true else eqT x y
  | Result.err x, Result.err y => eqE x y
  | _, _ => false

/-- Models `Result::operator!=(const Result<T, E>&)` (result.h 289-291):
the negation of `operator==`. -/
def ne {T E : Type} (tIsUnit : Bool) (eqT : T → T → Bool) (eqE : E → E → Bool)
    (a b : Result T E) : Bool :=
  !(eq tIsUnit eqT eqE a b)

/-- Models `Result::operator==(const Ok<T>& other)` (result.h 254-261): for
the `T = unit_t` instantiation (`tIsUnit = true`) the `if constexpr` branch
returns `true` unconditionally — the discriminant is never inspected;
otherwise it is `kind() == ResultKind::Ok && get<T>() == other.value()`.
`other` is the wrapper's payload `other.value()`. -/
def eq_ok {T E : Type} (tIsUnit : Bool) (eqT : T → T → Bool) (r : Result T E)
    (other : T) : Bool :=
  if tIsUnit then true
  else
    match r with
    | Result.ok v => eqT v other
    | Result.err _ => false

/-- Models `Result::operator!=(const Ok<T>&)` (result.h 262-264). -/
def ne_ok {T E : Type} (tIsUnit : Bool) (eqT : T → T → Bool) (r : Result T E)
    (other : T) : Bool :=
  !(eq_ok tIsUnit eqT r other)

/-- Models `Result::operator==(const Err<E>& other)` (result.h 265-268):
`kind() == ResultKind::Err && get<E>() == other.value()`. -/
def eq_err {T E : Type} (eqE : E → E → Bool) (r : Result T E)
    (other : E) : Bool :=
  match r with
  | Result.ok _ => false
  | Result.err v => eqE v other

/-- Models `Result::operator!=(const Err<E>&)` (result.h 269-271). -/
def ne_err {T E : Type} (eqE : E → E → Bool) (r : Result T E)
    (other : E) : Bool :=
  !(eq_err eqE r other)

/-- Models `Result::try_ok()` (result.h 350-361): if the discriminant is not
`Ok`, call `details::terminate("Called `try_ok` on an Err value")` — modelled
as `Except.error` carrying the diagnostic — otherwise return the payload. -/
def try_ok {T E : Type} (r : Result T E) : Except String T :=
  match r with
  | Result.ok v => Except.ok v
  | Result.err _ => Except.error "Called `try_ok` on an Err value"

/-- Models `Result::try_err()` (result.h 338-349). -/
def try_err {T E : Type} (r : Result T E) : Except String E :=
  match r with
  | Result.ok _ => Except.error "Called `try_err` on an Ok value"
  | Result.err v => Except.ok v

/-- Models `Result::unwrap()` (result.h 363-368): move out the success payload
or terminate with the generic diagnostic. -/
def unwrap {T E : Type} (r : Result T E) : Except String T :=
  match r with
  | Result.ok v => Except.ok v
  | Result.err _ => Except.error "Called `unwrap` on a Err value"

/-- Models `Result::unwrap_or(T&& value)` (result.h 369-374): if the
discriminant is not `Ok`, return the supplied fallback, else move out the
success payload.  The body contains no call to `details::terminate`, so the
translation never produces `Except.error`. -/
def unwrap_or {T E : Type} (r : Result T E) (value : T) : Except String T :=
  match r with
  | Result.ok v => Except.ok v
  | Result.err _ => Except.ok value

/-- Models `Result::expect(message)` (result.h 384-389): move out the success
payload or terminate with the caller-supplied message. -/
def expect {T E : Type} (r : Result T E) (message : String) : Except String T :=
  match r with
  | Result.ok v => Except.ok v
  | Result.err _ => Except.error message

/-- Models `Result::map(F&& map_fn)` (result.h 411-420): on success, wrap
`map_fn(payload)` as the new success; on failure, rebuild `Err` from the
unchanged error payload at the new success type `T2`. -/
def map {T E T2 : Type} (r : Result T E) (map_fn : T → T2) : Result T2 E :=
  match r with
  | Result.ok v => Result.ok (map_fn v)
  | Result.err e => Result.err e

/-- Models `Result::and_then(F&& fn)` (result.h 442-452): on success, return
`fn(payload)` directly; on failure, rebuild `Err` from the unchanged error
payload at the new success type `T2` — `fn` does not occur in that branch. -/
def and_then {T E T2 : Type} (r : Result T E) (fn : T → Result T2 E) :
    Result T2 E :=
  match r with
  | Result.ok v => fn v
  | Result.err e => Result.err e

/-- Models `operator<(const Result<T, E>&, const Result<T2, E>&)` (result.h
481-491): both `Err` gives false; `Err` on the left gives true; otherwise
`lhs.try_ok() < rhs.try_ok()` — both `try_ok` calls are evaluated, so a
failure on the right reaches the termination path.  `ltT` abstracts the
payload `operator<`. -/
def lt {T T2 E : Type} (ltT : T → T2 → Bool) (lhs : Result T E)
    (rhs : Result T2 E) : Except String Bool :=
  if lhs.is_err && rhs.is_err then Except.ok false
  else if lhs.is_err then Except.ok true
  else do
    let a ← lhs.try_ok
    let b ← rhs.try_ok
    Except.ok (ltT a b)

/-- Models `operator<=(const Result<T, E>&, const Result<T2, E>&)` (result.h
492-502): both `Err` gives true; `Err` on the left gives true; otherwise
`lhs.try_ok() <= rhs.try_ok()`. -/
def le {T T2 E : Type} (leT : T → T2 → Bool) (lhs : Result T E)
    (rhs : Result T2 E) : Except String Bool :=
  if lhs.is_err && rhs.is_err then Except.ok true
  else if lhs.is_err then Except.ok true
  else do
    let a ← lhs.try_ok
    let b ← rhs.try_ok
    Except.ok (leT a b)

/-- Models `operator>(const Result<T, E>&, const Result<T2, E>&)` (result.h
503-507): `!(lhs <= rhs)`. -/
def gt {T T2 E : Type} (leT : T → T2 → Bool) (lhs : Result T E)
    (rhs : Result T2 E) : Except String Bool := do
  let b ← le leT lhs rhs
  Except.ok !b

/-- Models `operator>=(const Result<T, E>&, const Result<T2, E>&)` (result.h
508-512): `!(lhs < rhs)`. -/
def ge {T T2 E : Type} (ltT : T → T2 → Bool) (lhs : Result T E)
    (rhs : Result T2 E) : Except String Bool := do
  let b ← lt ltT lhs rhs
  Except.ok !b

end Result

end result

namespace result

/-- Claim C1 (counterexample). The claim as stated fails on the code at two
concrete inputs: (1) constructing the `T = unit_t` instantiation of the
storage from an `Ok` wrapper sets the discriminant to `Ok` but, the
`if constexpr` having skipped construction, leaves no live `T` payload;
(2) copy-assigning `Err(5)` over a storage holding `Ok(3)` leaves the
discriminant `Err` with no live `E` payload, because `operator=` destroys the
old payload and then assigns — without constructing — into the dead slot. -/
theorem c1_counterexample :
    ((details.construct_ok (T := unit_t) (E := Nat) true unit_t.unit).m_tag = ResultKind.Ok
      ∧ (details.construct_ok (T := unit_t) (E := Nat) true unit_t.unit).liveT = none)
    ∧ ((details.copy_assign (details.construct_ok (T := Nat) (E := Nat) false 3)
          (details.construct_err 5)).m_tag = ResultKind.Err
      ∧ (details.copy_assign (details.construct_ok (T := Nat) (E := Nat) false 3)
          (details.construct_err 5)).liveE = none) := by
  refine ⟨⟨rfl, rfl⟩, ⟨rfl, rfl⟩⟩

/-- Claim C1 (amended). For every instantiation with `T ≠ unit_t`
(`tIsUnit = false`): construction from an `Ok` or `Err` wrapper, copy
construction, and move construction each establish or preserve the
exactly-one-alternative invariant `wf` (the discriminant matches exactly one
live payload), and on a well-formed storage destruction invokes the
destructor of exactly the live alternative (`~T` precisely when the tag is
`Ok` and the `T` payload is live, `~E` precisely when the tag is `Err` and
the `E` payload is live).  Two exceptions hold, exactly as the code is
written: for `T = unit_t` an `Ok`-tagged storage has no live `T` payload
(construction is skipped as a zero-size optimization, yet destruction still
issues the trivial `~unit_t` call by tag), and copy/move assignment breaks
the invariant — it destroys the live payload and then assigns into the dead
slot without constructing, so a well-formed source and destination always
yield a non-well-formed destination. -/
theorem c1_amended :
    (∀ (T E : Type) (v : T), details.wf (details.construct_ok (E := E) false v) = true)
    ∧ (∀ (T E : Type) (e : E), details.wf (details.construct_err (T := T) e) = true)
    ∧ (∀ (T E : Type) (rhs : details.ResultStorage T E), details.wf rhs = true →
        details.wf (details.copy_construct false rhs) = true
        ∧ details.wf (details.move_construct false rhs) = true)
    ∧ (∀ (T E : Type) (s : details.ResultStorage T E), details.wf s = true →
        (s.m_tag = ResultKind.Ok →
          s.liveT.isSome = true ∧ details.destroy_calls s = [true])
        ∧ (s.m_tag = ResultKind.Err →
          s.liveE.isSome = true ∧ details.destroy_calls s = [false]))
    ∧ (∀ (E : Type),
        (details.construct_ok (T := unit_t) (E := E) true unit_t.unit).m_tag = ResultKind.Ok
        ∧ (details.construct_ok (T := unit_t) (E := E) true unit_t.unit).liveT = none)
    ∧ (∀ (T E : Type) (s rhs : details.ResultStorage T E),
        details.wf s = true → details.wf rhs = true →
        details.wf (details.copy_assign s rhs) = false) := by
  refine ⟨?_, ?_, ?_, ?_, ?_, ?_⟩
  · intro T E v
    simp [details.wf, details.construct_ok]
  · intro T E e
    simp [details.wf, details.construct_err]
  · rintro T E ⟨tag, lT, lE⟩ h
    cases tag <;> cases lT <;> cases lE <;>
      simp_all [details.wf, details.copy_construct, details.move_construct]
  · rintro T E ⟨tag, lT, lE⟩ h
    cases tag <;> cases lT <;> cases lE <;>
      simp_all [details.wf, details.destroy_calls]
  · intro E
    exact ⟨rfl, rfl⟩
  · rintro T E ⟨ts, lTs, lEs⟩ ⟨tr, lTr, lEr⟩ hs hr
    cases ts <;> cases tr <;> cases lTs <;> cases lEs <;>
      simp_all [details.wf, details.copy_assign, details.destroy,
        details.assign_slot_T, details.assign_slot_E]

/-- Claim C1 (witness). Concrete instances at `T = E = Nat`: copy construction
from a well-formed `Err` storage is well-formed; a well-formed `Ok` storage
has a live `T` payload and its destruction calls exactly `~T`; and
copy-assigning one well-formed storage over another leaves a non-well-formed
destination. -/
theorem c1_amended_witness :
    details.wf (details.copy_construct false
        (details.construct_err (T := Nat) (E := Nat) 5)) = true
    ∧ ((details.construct_ok (T := Nat) (E := Nat) false 3).liveT.isSome = true
        ∧ details.destroy_calls (details.construct_ok (T := Nat) (E := Nat) false 3) = [true])
    ∧ details.wf (details.copy_assign (details.construct_ok (T := Nat) (E := Nat) false 3)
        (details.construct_err 5)) = false :=
  ⟨(c1_amended.2.2.1 Nat Nat _ (by decide)).1,
   (c1_amended.2.2.2.1 Nat Nat _ (by decide)).1 rfl,
   c1_amended.2.2.2.2.2 Nat Nat _ _ (by decide) (by decide)⟩

/-- Claim C2. Result-to-Result equality: two successes compare by the `T`
payload equality, two failures by the `E` payload equality, every
cross-discriminant pair is unequal, and `operator!=` is the negation of
`operator==`; for the `T = unit_t` instantiation two successes compare equal
outright, consistent with the unit payloads being always equal. -/
theorem c2_result_equality :
    (∀ (T E : Type) (eqT : T → T → Bool) (eqE : E → E → Bool),
      (∀ (x y : T), Result.eq (E := E) false eqT eqE (Result.ok x) (Result.ok y) = eqT x y)
      ∧ (∀ (x y : E), Result.eq (T := T) false eqT eqE (Result.err x) (Result.err y) = eqE x y)
      ∧ (∀ (x : T) (y : E), Result.eq false eqT eqE (Result.ok x) (Result.err y) = false)
      ∧ (∀ (x : E) (y : T), Result.eq false eqT eqE (Result.err x) (Result.ok y) = false)
      ∧ (∀ (a b : Result T E),
          Result.ne false eqT eqE a b = !(Result.eq false eqT eqE a b)))
    ∧ (∀ (E : Type) (eqT : unit_t → unit_t → Bool) (eqE : E → E → Bool),
      (∀ (x y : unit_t), Result.eq (E := E) true eqT eqE (Result.ok x) (Result.ok y) = true)
      ∧ (∀ (x y : E), Result.eq (T := unit_t) true eqT eqE (Result.err x) (Result.err y) = eqE x y)
      ∧ (∀ (x : unit_t) (y : E), Result.eq true eqT eqE (Result.ok x) (Result.err y) = false)
      ∧ (∀ (x : E) (y : unit_t), Result.eq true eqT eqE (Result.err x) (Result.ok y) = false)) :=
  ⟨fun _ _ _ _ =>
    ⟨fun _ _ => rfl, fun _ _ => rfl, fun _ _ => rfl, fun _ _ => rfl, fun _ _ => rfl⟩,
   fun _ _ _ =>
    ⟨fun _ _ => rfl, fun _ _ => rfl, fun _ _ => rfl, fun _ _ => rfl⟩⟩

/-- Claim C3. The code violates the claim: every ordering comparison with a
success on the left and a failure on the right evaluates `rhs.try_ok()` on
the failure operand, reaching the termination path with the `try_ok`
diagnostic — here evaluated at `Result<int,int>(Ok(0))` against `Err(1)` for
all four operators. -/
theorem c3_ordering_ok_err_terminates :
    Result.lt (fun a b : Nat => decide (a < b))
        (Result.ok (E := Nat) 0) (Result.err 1)
      = Except.error "Called `try_ok` on an Err value"
    ∧ Result.le (fun a b : Nat => decide (a ≤ b))
        (Result.ok (E := Nat) 0) (Result.err 1)
      = Except.error "Called `try_ok` on an Err value"
    ∧ Result.gt (fun a b : Nat => decide (a ≤ b))
        (Result.ok (E := Nat) 0) (Result.err 1)
      = Except.error "Called `try_ok` on an Err value"
    ∧ Result.ge (fun a b : Nat => decide (a < b))
        (Result.ok (E := Nat) 0) (Result.err 1)
      = Except.error "Called `try_ok` on an Err value" :=
  ⟨rfl, rfl, rfl, rfl⟩

/-- Claim C4. `operator<` on two Results sharing the error type: a failure on
the left against a success on the right yields true; two failures yield
false; two successes yield exactly the payload comparison `ltT`. -/
theorem c4_ordering_cases :
    ∀ (T T2 E : Type) (ltT : T → T2 → Bool),
      (∀ (e : E) (v : T2),
        Result.lt ltT (Result.err (T := T) e) (Result.ok v) = Except.ok true)
      ∧ (∀ (e e2 : E),
        Result.lt ltT (Result.err (T := T) e) (Result.err (T := T2) e2) = Except.ok false)
      ∧ (∀ (v : T) (w : T2),
        Result.lt ltT (Result.ok (E := E) v) (Result.ok w) = Except.ok (ltT v w)) :=
  fun _ _ _ _ => ⟨fun _ _ => rfl, fun _ _ => rfl, fun _ _ => rfl⟩

/-- Claim C5. The code violates the claim for the `T = unit_t` instantiation:
`Result<unit_t,int>(Err(5)) == Ok()` returns true although the Result is a
failure — the `if constexpr` branch of `operator==(const Ok<T>&)` returns
true without inspecting the discriminant (and ignores payload equality
entirely: the payload comparison used here is constantly false); `!=`
correspondingly returns false. -/
theorem c5_unit_ok_equality_ignores_discriminant :
    Result.eq_ok (T := unit_t) (E := Nat) true (fun _ _ => false)
        (Result.err 5) unit_t.unit = true
    ∧ Result.ne_ok (T := unit_t) (E := Nat) true (fun _ _ => false)
        (Result.err 5) unit_t.unit = false :=
  ⟨rfl, rfl⟩

/-- Claim C6. `and_then` on a failure returns the failure with the original
error payload unchanged (retagged to the new success type `T2`) for every
supplied function — the result does not depend on `fn`, so `fn` is never
invoked; on a success it returns exactly `fn` applied to the success
payload. -/
theorem c6_and_then_short_circuit :
    ∀ (T E T2 : Type),
      (∀ (e : E) (fn : T → Result T2 E),
        Result.and_then (Result.err e) fn = Result.err e)
      ∧ (∀ (v : T) (fn : T → Result T2 E),
        Result.and_then (Result.ok v) fn = fn v) :=
  fun _ _ _ => ⟨fun _ _ => rfl, fun _ _ => rfl⟩

/-- Claim C7. `map` on a success returns a success whose payload is `fn`
applied to the original payload; on a failure it returns, for every `fn`, a
failure carrying the original error payload unchanged at the new success
type `T2`. -/
theorem c7_map :
    ∀ (T E T2 : Type),
      (∀ (v : T) (fn : T → T2),
        Result.map (E := E) (Result.ok v) fn = Result.ok (fn v))
      ∧ (∀ (e : E) (fn : T → T2),
        Result.map (Result.err e : Result T E) fn = (Result.err e : Result T2 E)) :=
  fun _ _ _ => ⟨fun _ _ => rfl, fun _ _ => rfl⟩

/-- Claim C8. `unwrap_or` returns the success payload on a success and the
supplied fallback on a failure, and never reaches the termination path
(the translation of its body produces no `Except.error`); concretely,
`Result<int,string>(Ok(5)).unwrap_or(10)` is `5` and
`Result<int,string>(Err("boom")).unwrap_or(10)` is `10`. -/
theorem c8_unwrap_or :
    (∀ (T E : Type) (v d : T),
      Result.unwrap_or (E := E) (Result.ok v) d = Except.ok v)
    ∧ (∀ (T E : Type) (e : E) (d : T),
      Result.unwrap_or (Result.err e) d = Except.ok d)
    ∧ Result.unwrap_or (Result.ok (E := String) (5 : Int)) 10 = Except.ok 5
    ∧ Result.unwrap_or (Result.err (T := Int) "boom") 10 = Except.ok 10 :=
  ⟨fun _ _ _ _ => rfl, fun _ _ _ _ => rfl, rfl, rfl⟩

/-- Claim C9. The code violates the claim: `ResultStorage::operator=` destroys
the current payload and then *assigns* (`val = rhs.get<...>()`) into the slot
selected by the new tag instead of placement-constructing there.  Since the
destroyed slot holds no live object, the assignment cannot begin a lifetime:
assigning an `Err` source over an `Ok` destination (and vice versa) leaves
the destination's discriminant set to the source's tag with no live payload
at all — the destination does not equal the source. -/
theorem c9_assignment_is_destroy_then_assign :
    ((details.copy_assign (details.construct_ok (T := Nat) (E := Nat) false 42)
        (details.construct_err 7)).m_tag = ResultKind.Err
      ∧ (details.copy_assign (details.construct_ok (T := Nat) (E := Nat) false 42)
          (details.construct_err 7)).liveE = none
      ∧ (details.copy_assign (details.construct_ok (T := Nat) (E := Nat) false 42)
          (details.construct_err 7)).liveT = none)
    ∧ ((details.copy_assign (details.construct_err (T := Nat) (E := Nat) 9)
        (details.construct_ok false 1)).m_tag = ResultKind.Ok
      ∧ (details.copy_assign (details.construct_err (T := Nat) (E := Nat) 9)
          (details.construct_ok false 1)).liveT = none) :=
  ⟨⟨rfl, rfl, rfl⟩, ⟨rfl, rfl⟩⟩

/-- Claim C10. The code violates the claim: `Result()` requires its
`m_storage` member to be default-initialized before the constructor body,
but `ResultStorage::ResultStorage()` is deleted (result.h 117), so default
construction is ill-formed.  Moreover, even granting an initialized-but-empty
storage, the body `m_storage = Ok(T());` routes through the defective
`operator=`: starting from any storage with no live payload, assigning the
`Ok(T())` temporary sets the discriminant to `Ok` but leaves no live
default-constructed `T` behind. -/
theorem c10_default_construction_no_live_payload :
    ∀ (s : details.ResultStorage Nat Nat), s.liveT = none → s.liveE = none →
      (details.copy_assign s (details.construct_ok false 0)).m_tag = ResultKind.Ok
      ∧ (details.copy_assign s (details.construct_ok false 0)).liveT = none := by
  rintro ⟨tag, lT, lE⟩ h1 h2
  simp only at h1 h2
  subst h1
  subst h2
  cases tag <;>
    simp [details.copy_assign, details.destroy, details.assign_slot_T,
      details.assign_slot_E, details.construct_ok]

/-- Claim C10 (witness). Concrete instance: an empty storage whose
indeterminate tag happens to read `Err`, assigned the `Ok(0)` temporary,
ends with tag `Ok` and no live success payload. -/
theorem c10_witness :
    (details.copy_assign (⟨ResultKind.Err, none, none⟩ : details.ResultStorage Nat Nat)
        (details.construct_ok false 0)).m_tag = ResultKind.Ok
    ∧ (details.copy_assign (⟨ResultKind.Err, none, none⟩ : details.ResultStorage Nat Nat)
        (details.construct_ok false 0)).liveT = none :=
  c10_default_construction_no_live_payload ⟨ResultKind.Err, none, none⟩ rfl rfl

end result
